import Mathlib

/-!
Shallow embedding of the terminal task runner of this repository
(`cloudify_terminal/tasks.py`): the retry wrapper `_rerun` and the
operation `run`, modelled over an explicit transport collaborator and an
explicit event trace.  Pure data flows are translated function by
function from the Python source; external collaborators (the transport,
the template renderer, the resource lookup) are parameters.
-/

namespace Terminal

/-- Error kinds raised across the task boundary.  The constructor names
follow the exception classes used by the source
(`terminal_connection.RecoverableWarning`, `cfy_exc.RecoverableError`,
`cfy_exc.NonRecoverableError`, `cfy_exc.OperationRetry`). -/
inductive ErrK where
  | recoverableWarning (msg : String)
  | recoverableError (msg : String)
  | nonRecoverableError (msg : String)
  | operationRetry (msg : String)
  deriving DecidableEq

/-- Whether the surrounding engine treats the raised error as retryable:
recoverable errors and operation-retry requests are re-invoked by the
caller, a non-recoverable error is fatal. -/
def ErrK.retryable : ErrK → Bool
  | .recoverableWarning _ => true
  | .recoverableError _ => true
  | .operationRetry _ => true
  | .nonRecoverableError _ => false

/-- Result of a fallible step: a returned value or a raised error. -/
inductive Res (α : Type) where
  | ok (v : α)
  | err (e : ErrK)
  deriving DecidableEq

/-- The keyword arguments of one invocation of the transport `run`
method (`connection.run(command=..., prompt_check=..., ...)`). -/
structure RunArgs where
  command : String
  prompt_check : Option (List String)
  error_examples : List String
  warning_examples : List String
  critical_examples : List String
  responses : List (String × String)
  deriving DecidableEq

/-- One outcome of an invocation of the transport `run` method: normal
output, a raised `RecoverableWarning`, or any other raised exception. -/
inductive RunOutcome where
  | ok (output : String)
  | warn (msg : String)
  | fatal (e : ErrK)
  deriving DecidableEq

def RunOutcome.isOk : RunOutcome → Bool
  | .ok _ => true
  | _ => false

def RunOutcome.isWarn : RunOutcome → Bool
  | .warn _ => true
  | _ => false

/-- The transport collaborator (`terminal_connection.connection`).  Its
stateful behaviour is given up front: `runOut k` is the outcome of the
k-th invocation of `run`, `isClosed k` the answer of the k-th
`is_closed` check, and `connect ip` the result of connecting to `ip`
(the detected prompt, or a raised error rendered as a string). -/
structure Transport where
  connect : String → Except String String
  runOut : Nat → RunOutcome
  isClosed : Nat → Bool

/-- Observable events of one task run, in order. -/
inductive Event where
  | connectTry (ip : String)
  | connectFailLog (ip : String) (err : String)
  | run (args : RunArgs)
  | sleep (secs : Nat)
  | storeWrite (key val : String)
  | close
  deriving DecidableEq

/-- State threaded through the embedded run: the runtime-properties
store, the event trace, and the invocation counters selecting the
transport behaviour. -/
structure RunState where
  store : List (String × String)
  trace : List Event
  runIdx : Nat
  closedIdx : Nat
  deriving DecidableEq

/-- Assignment into the runtime-properties store
(`ctx_instance.runtime_properties[key] = value`). -/
def storeSet (st : List (String × String)) (k v : String) : List (String × String) :=
  if st.any (fun p => p.1 == k) then st.map (fun p => if p.1 == k then (k, v) else p)
  else st ++ [(k, v)]

/-- Lookup in the runtime-properties store. -/
def storeGet (st : List (String × String)) (k : String) : Option String :=
  (st.find? (fun p => p.1 == k)).map Prod.snd

/-- A value bound in the template parameter mapping: a plain value, or
the ambient execution context object (`template_params['ctx'] = ctx`). -/
inductive PVal where
  | str (s : String)
  | ctxRef
  deriving DecidableEq

abbrev Params := List (String × PVal)

/-- Dictionary-style key update on a parameter mapping. -/
def setParam (ps : Params) (k : String) (v : PVal) : Params :=
  if ps.any (fun p => p.1 == k) then ps.map (fun p => if p.1 == k then (k, v) else p)
  else ps ++ [(k, v)]

/-- Ambient execution-context collaborators: the container host address
(`ctx_instance.host_ip`), the resource lookup (`ctx.get_resource`,
returning the empty string for a missing or empty resource), and the
template renderer (`jinja2.Template(...).render(...)`). -/
structure Ctx where
  hostIp : String
  getResource : String → String
  render : String → Params → String

/-- The `ip` entry of `terminal_auth`: a single string or a list. -/
inductive IpVal where
  | str (s : String)
  | list (l : List String)
  deriving DecidableEq

/-- Python truthiness of an `ip` value. -/
def IpVal.falsy : IpVal → Bool
  | .str s => s == ""
  | .list l => l.isEmpty

/-- Python truthiness test of an optional string (absent or empty). -/
def strFalsy : Option String → Bool
  | none => true
  | some s => s == ""

/-- The `terminal_auth` mapping: each field is `none` when the key is
absent. -/
structure Auth where
  ip : Option IpVal := none
  user : Option String := none
  password : Option String := none
  key_content : Option String := none
  port : Option Nat := none
  promt_check : Option (List String) := none
  errors : Option (List String) := none
  warnings : Option (List String) := none
  criticals : Option (List String) := none
  exit_command : Option String := none
  store_logs : Option Bool := none

/-- One dictionary-update step: the override value wins when present. -/
def oupd {α : Type} (base ov : Option α) : Option α :=
  match ov with
  | some v => some v
  | none => base

/-- `terminal_auth.update(kwargs.get('terminal_auth', ))`: per-key
override of the node-level defaults by the per-invocation mapping. -/
def mergeAuth (props ov : Auth) : Auth where
  ip := oupd props.ip ov.ip
  user := oupd props.user ov.user
  password := oupd props.password ov.password
  key_content := oupd props.key_content ov.key_content
  port := oupd props.port ov.port
  promt_check := oupd props.promt_check ov.promt_check
  errors := oupd props.errors ov.errors
  warnings := oupd props.warnings ov.warnings
  criticals := oupd props.criticals ov.criticals
  exit_command := oupd props.exit_command ov.exit_command
  store_logs := oupd props.store_logs ov.store_logs

/-- Resolution of the address list (tasks.py lines 59-67): fall back to
the container host when the `ip` entry is absent or falsy, then wrap a
bare string into a one-element list. -/
def resolveIpList (cx : Ctx) (authIp : Option IpVal) : List String :=
  match authIp with
  | none => [cx.hostIp]
  | some v =>
    if v.falsy then [cx.hostIp]
    else match v with
      | .str s => [s]
      | .list l => l

/-- One declarative call entry; each field is `none` when the key is
absent from the mapping. -/
structure Call where
  action : Option String := none
  template : Option String := none
  template_text : Option String := none
  params : Option Params := none
  responses : Option (List (String × String)) := none
  promt_check : Option (List String) := none
  errors : Option (List String) := none
  warnings : Option (List String) := none
  criticals : Option (List String) := none
  save_to : Option String := none
  retry_count : Option Nat := none
  retry_sleep : Option Nat := none

/-- The global pattern settings derived from the merged `terminal_auth`
(tasks.py lines 79-82). -/
structure Globals where
  promt_check : Option (List String)
  errors : List String
  warnings : List String
  criticals : List String

def mkGlobals (auth : Auth) : Globals where
  promt_check := auth.promt_check
  errors := auth.errors.getD []
  warnings := auth.warnings.getD []
  criticals := auth.criticals.getD []

/-- Per-call settings (tasks.py lines 113-117): each call key defaults
to the global value when absent. -/
structure CallSettings where
  responses : List (String × String)
  promt_check : Option (List String)
  error_examples : List String
  warning_examples : List String
  critical_examples : List String

def callSettings (g : Globals) (call : Call) : CallSettings where
  responses := call.responses.getD []
  promt_check := oupd g.promt_check call.promt_check
  error_examples := call.errors.getD g.errors
  warning_examples := call.warnings.getD g.warnings
  critical_examples := call.criticals.getD g.criticals

/-- The keyword arguments built for a command line (tasks.py 170-177). -/
def mkRunArgs (cmd : String) (s : CallSettings) : RunArgs where
  command := cmd
  prompt_check := s.promt_check
  error_examples := s.error_examples
  warning_examples := s.warning_examples
  critical_examples := s.critical_examples
  responses := s.responses

/-- Python whitespace for `str.strip()`. -/
def isPySpace (c : Char) : Bool :=
  c == ' ' || c == '\t' || c == '\n' || c == '\r'

def pyStripL (l : List Char) : List Char :=
  ((l.dropWhile isPySpace).reverse.dropWhile isPySpace).reverse

/-- Python `str.strip()`: remove leading and trailing whitespace. -/
def pyStrip (s : String) : String := String.mk (pyStripL s.data)

def splitNLAux : List Char → List Char → List (List Char)
  | [], cur => [cur.reverse]
  | c :: rest, cur =>
    if c == '\n' then cur.reverse :: splitNLAux rest []
    else splitNLAux rest (c :: cur)

/-- Python `str.split("\n")`: split on every newline character. -/
def pySplitNL (s : String) : List String :=
  (splitNLAux s.data []).map String.mk

/-- The tail of call compilation (tasks.py lines 136-150): the
`template_text` branch, guarded by `if not operation and 'template_text'
in call`, followed by the final `if not operation: continue` check.
`none` means the call is skipped. -/
def compileTemplateText (cx : Ctx) (call : Call) (operation : String) : Option String :=
  match (if operation == "" then call.template_text else none) with
  | some t =>
    if t == "" then none
    else
      let ps := setParam (call.params.getD []) "ctx" PVal.ctxRef
      let op2 := cx.render t ps
      if op2 == "" then none else some op2
  | none => if operation == "" then none else some operation

/-- Call compilation as the source performs it (tasks.py lines 118-150):
`action` verbatim when non-empty; else the `template` branch, whose
lookup failure skips the call (`continue`); then the `template_text`
branch when the text so far is still empty; finally an empty text skips
the call.  `none` means the call is skipped. -/
def compileCall (cx : Ctx) (call : Call) : Option String :=
  let operation := call.action.getD ""
  match (if operation == "" then call.template else none) with
  | some tname =>
    let t := cx.getResource tname
    if t == "" then none
    else
      let ps := setParam (call.params.getD []) "ctx" PVal.ctxRef
      compileTemplateText cx call (cx.render t ps)
  | none => compileTemplateText cx call operation

/-- Call compilation as the specification sentence states it: a strict
else-if chain — non-empty raw action verbatim; else, when a template
name is given, look it up (failure treated as empty) and render; else,
when inline template text is given, render it; else empty — and an
empty compiled result means the call is skipped (`none`). -/
def compileCallSpec (cx : Ctx) (call : Call) : Option String :=
  let compiled :=
    if call.action.getD "" != "" then call.action.getD ""
    else match call.template with
    | some tname =>
      let t := cx.getResource tname
      if t == "" then ""
      else cx.render t (setParam (call.params.getD []) "ctx" PVal.ctxRef)
    | none =>
      match call.template_text with
      | some tt => cx.render tt (setParam (call.params.getD []) "ctx" PVal.ctxRef)
      | none => ""
  if compiled == "" then none else some compiled

/-- Rendering of the keyword arguments embedded in the exhaustion
message of `_rerun` (`"Failed to rerun: :".format(repr(args),
repr(kwargs))` with `args = []` and `kwargs` the transport run
arguments). -/
def argsRepr (a : RunArgs) : String :=
  "command=" ++ a.command
    ++ ";errors=" ++ String.intercalate "," a.error_examples
    ++ ";warnings=" ++ String.intercalate "," a.warning_examples
    ++ ";criticals=" ++ String.intercalate "," a.critical_examples

def rerunFailMsg (a : RunArgs) : String :=
  "Failed to rerun: []:" ++ argsRepr a

/-- The `while retry_count > 0` loop of `_rerun` (tasks.py lines
26-35): the counter is the recursion fuel; each attempt invokes the
transport once, a `RecoverableWarning` outcome sleeps `retry_sleep` and
retries, any other raised error propagates, and a zero counter raises
`RecoverableError` with the arguments in the message. -/
def rerunLoop (tr : Transport) (a : RunArgs) (retry_sleep : Nat) :
    Nat → RunState → Res String × RunState
  | 0, st => (.err (.recoverableError (rerunFailMsg a)), st)
  | n + 1, st =>
    let out := tr.runOut st.runIdx
    let st1 : RunState :=
      { st with runIdx := st.runIdx + 1, trace := st.trace ++ [Event.run a] }
    match out with
    | .ok s => (.ok s, st1)
    | .fatal e => (.err e, st1)
    | .warn _ =>
      rerunLoop tr a retry_sleep n
        { st1 with trace := st1.trace ++ [Event.sleep retry_sleep] }

/-- `_rerun` (tasks.py lines 24-35).  The body overwrites the
`retry_count` parameter with the constant 10 (line 25), so the passed
argument is ignored. -/
def rerun (tr : Transport) (a : RunArgs) (retry_count retry_sleep : Nat)
    (st : RunState) : Res String × RunState :=
  let retry_count := 10
  rerunLoop tr a retry_sleep retry_count st

/-- The per-line loop of one call (tasks.py lines 157-184): blank lines
are skipped, each non-blank line runs through `_rerun`, and its raw
output plus a newline is appended to the accumulator. -/
def runLines (tr : Transport) (s : CallSettings) (retry_count retry_sleep : Nat) :
    List String → String → RunState → Res String × RunState
  | [], acc, st => (.ok acc, st)
  | l :: rest, acc, st =>
    if pyStrip l == "" then runLines tr s retry_count retry_sleep rest acc st
    else
      match rerun tr (mkRunArgs l s) retry_count retry_sleep st with
      | (.err e, st1) => (.err e, st1)
      | (.ok part, st1) =>
        runLines tr s retry_count retry_sleep rest (acc ++ part ++ "\n") st1

/-- Processing of one call (tasks.py lines 112-189): compile, run the
lines, and store the trimmed accumulated result when a truthy `save_to`
key is present. -/
def processCall (cx : Ctx) (tr : Transport) (g : Globals) (call : Call)
    (st : RunState) : Res Unit × RunState :=
  match compileCall cx call with
  | none => (.ok (), st)
  | some operation =>
    let s := callSettings g call
    match runLines tr s (call.retry_count.getD 10) (call.retry_sleep.getD 15)
        (pySplitNL operation) "" st with
    | (.err e, st1) => (.err e, st1)
    | (.ok result, st1) =>
      match call.save_to with
      | some k =>
        if k == "" then (.ok (), st1)
        else
          (.ok (), { st1 with
            store := storeSet st1.store k (pyStrip result)
            trace := st1.trace ++ [Event.storeWrite k (pyStrip result)] })
      | none => (.ok (), st1)

/-- The `for call in calls` loop: calls are processed in order and the
first raised error propagates. -/
def processCalls (cx : Ctx) (tr : Transport) (g : Globals) :
    List Call → RunState → Res Unit × RunState
  | [], st => (.ok (), st)
  | c :: rest, st =>
    match processCall cx tr g c st with
    | (.err e, st1) => (.err e, st1)
    | (.ok _, st1) => processCalls cx tr g rest st1

/-- The `for ip in ip_list` connect loop (tasks.py lines 96-108): each
address is tried once in order, a failure is logged with the address and
the error, the first success wins, and the `else` clause of an exhausted
loop raises `OperationRetry`. -/
def connectLoop (tr : Transport) : List String → RunState → Res String × RunState
  | [], st => (.err (.operationRetry "Lets try one more time?"), st)
  | ip :: rest, st =>
    let st1 : RunState := { st with trace := st.trace ++ [Event.connectTry ip] }
    match tr.connect ip with
    | .ok prompt => (.ok prompt, st1)
    | .error ex =>
      connectLoop tr rest
        { st1 with trace := st1.trace ++ [Event.connectFailLog ip ex] }

/-- The keyword arguments of a close-loop invocation of the transport
`run` (tasks.py lines 193-195): only `command`, `prompt_check` and
`error_examples` are passed; the warning, critical and response
arguments stay at their empty defaults. -/
def exitRunArgs (exitCmd : String) (s : CallSettings) : RunArgs where
  command := exitCmd
  prompt_check := s.promt_check
  error_examples := s.error_examples
  warning_examples := []
  critical_examples := []
  responses := []

/-- The closing loop (tasks.py lines 191-199): while the transport does
not report closed and the exit command is truthy, issue the exit command
and sleep one second; the loop has no iteration cap, so the embedding
carries explicit fuel and returns `none` when the fuel runs out with the
loop still running.  When the loop condition turns false the transport
`close` is invoked; an error raised by an exit command propagates and
skips the final `close`. -/
def closeLoop (tr : Transport) (ea : RunArgs) (exitCmd : String) :
    Nat → RunState → Option (Res Unit × RunState)
  | 0, st =>
    let closed := tr.isClosed st.closedIdx
    let st1 : RunState := { st with closedIdx := st.closedIdx + 1 }
    if closed || exitCmd == "" then
      some (.ok (), { st1 with trace := st1.trace ++ [Event.close] })
    else none
  | n + 1, st =>
    let closed := tr.isClosed st.closedIdx
    let st1 : RunState := { st with closedIdx := st.closedIdx + 1 }
    if closed || exitCmd == "" then
      some (.ok (), { st1 with trace := st1.trace ++ [Event.close] })
    else
      match tr.runOut st1.runIdx with
      | .ok _ =>
        closeLoop tr ea exitCmd n
          { st1 with
            runIdx := st1.runIdx + 1
            trace := st1.trace ++ [Event.run ea, Event.sleep 1] }
      | .warn m =>
        some (.err (.recoverableWarning m),
          { st1 with
            runIdx := st1.runIdx + 1
            trace := st1.trace ++ [Event.run ea] })
      | .fatal e =>
        some (.err e,
          { st1 with
            runIdx := st1.runIdx + 1
            trace := st1.trace ++ [Event.run ea] })

/-- Initial run state over a given runtime-properties store. -/
def initState (store : List (String × String)) : RunState where
  store := store
  trace := []
  runIdx := 0
  closedIdx := 0

/-- The operation `run` (tasks.py lines 38-199), with the per-run inputs
made explicit: ambient context `cx`, transport behaviour `tr`, node
properties `props`, per-invocation overrides `kwAuth`, the call list,
the pre-existing runtime-properties store, and fuel for the uncapped
closing loop (`none` marks the closing loop still running when the fuel
is spent).  An empty call list returns at once; then credentials are
merged and checked, a host is selected, the calls are processed, and
the closing sequence runs with the pattern settings left over from the
last call of the loop. -/
def run (cx : Ctx) (tr : Transport) (props kwAuth : Auth) (calls : List Call)
    (store0 : List (String × String)) (fuel : Nat) :
    Option (Res Unit × RunState) :=
  if calls.isEmpty then some (.ok (), initState store0)
  else
    let auth := mergeAuth props kwAuth
    let ipList := resolveIpList cx auth.ip
    if ipList.isEmpty || strFalsy auth.user then
      some (.err (.nonRecoverableError
        "please check your credentials, ip or user not set"), initState store0)
    else
      let g := mkGlobals auth
      let exitCmd := auth.exit_command.getD "exit"
      match connectLoop tr ipList (initState store0) with
      | (.err e, st1) => some (.err e, st1)
      | (.ok _prompt, st1) =>
        match processCalls cx tr g calls st1 with
        | (.err e, st2) => some (.err e, st2)
        | (.ok _, st2) =>
          match calls.getLast? with
          | none => some (.ok (), st2)
          | some lastCall =>
            let ls := callSettings g lastCall
            closeLoop tr (exitRunArgs exitCmd ls) exitCmd fuel st2

/-! ### Concrete scenarios used by closed theorems -/

/-- Transport raising `RecoverableWarning` on the first three run
invocations and succeeding on the fourth. -/
def c1Transport : Transport where
  connect := fun _ => .ok "p"
  runOut := fun n => if n < 3 then .warn "w" else .ok "done"
  isClosed := fun _ => true

/-- A sample set of transport run arguments. -/
def c1Args : RunArgs where
  command := "show version"
  prompt_check := none
  error_examples := []
  warning_examples := []
  critical_examples := []
  responses := []

/-- Transport raising `RecoverableWarning` on every run invocation. -/
def c2Transport : Transport where
  connect := fun _ => .ok "p"
  runOut := fun _ => .warn "w"
  isClosed := fun _ => true

/-- Transport raising a non-recoverable error on every run invocation. -/
def c2FatalTransport : Transport where
  connect := fun _ => .ok "p"
  runOut := fun _ => .fatal (.nonRecoverableError "boom")
  isClosed := fun _ => true

/-! ### Helper predicates over traces -/

/-- Whether an event is a transport `run` invocation. -/
def isRunEvent : Event → Bool
  | .run _ => true
  | _ => false

/-- Whether an event is a sleep. -/
def isSleepEvent : Event → Bool
  | .sleep _ => true
  | _ => false

/-- Whether an event is a connect attempt. -/
def isConnectTry : Event → Bool
  | .connectTry _ => true
  | _ => false

/-- Whether an event is a transport `run` invocation of the given
command. -/
def isRunOf (cmd : String) : Event → Bool
  | .run a => a.command == cmd
  | _ => false

/-- The state change of one transport `run` attempt inside `_rerun`. -/
def bump (st : RunState) (a : RunArgs) : RunState :=
  { st with runIdx := st.runIdx + 1, trace := st.trace ++ [Event.run a] }

/-! ### Unfolding lemmas for the retry loop -/

theorem rerunLoop_succ (tr : Transport) (a : RunArgs) (rs n : Nat) (st : RunState) :
    rerunLoop tr a rs (n + 1) st =
      (match tr.runOut st.runIdx with
       | .ok s => (Res.ok s, bump st a)
       | .fatal e => (Res.err e, bump st a)
       | .warn _ =>
         rerunLoop tr a rs n
           { bump st a with trace := (bump st a).trace ++ [Event.sleep rs] }) := rfl

/-- A first attempt that returns output ends `_rerun` at once. -/
theorem rerun_first_ok (tr : Transport) (a : RunArgs) (rc rs : Nat) (st : RunState)
    (o : String) (h : tr.runOut st.runIdx = .ok o) :
    rerun tr a rc rs st = (.ok o, bump st a) := by
  show rerunLoop tr a rs (9 + 1) st = _
  rw [rerunLoop_succ, h]

/-- An exhausted retry loop ends in the `RecoverableError` raise. -/
theorem rerunLoop_allWarn (tr : Transport) (a : RunArgs) (rs : Nat) :
    ∀ (n : Nat) (st : RunState),
      (∀ k, k < n → (tr.runOut (st.runIdx + k)).isWarn = true) →
      (rerunLoop tr a rs n st).1 = .err (.recoverableError (rerunFailMsg a)) := by
  intro n
  induction n with
  | zero => intro st _; rfl
  | succ m ih =>
    intro st h
    have h0 : (tr.runOut st.runIdx).isWarn = true := by
      have := h 0 (Nat.succ_pos m)
      simpa using this
    obtain ⟨w, hw⟩ : ∃ w, tr.runOut st.runIdx = .warn w := by
      cases hr : tr.runOut st.runIdx with
      | warn w => exact ⟨w, rfl⟩
      | ok s => rw [hr] at h0; simp [RunOutcome.isWarn] at h0
      | fatal e => rw [hr] at h0; simp [RunOutcome.isWarn] at h0
    rw [rerunLoop_succ, hw]
    apply ih
    intro k hk
    have := h (k + 1) (Nat.succ_lt_succ hk)
    have harith : st.runIdx + (k + 1) = st.runIdx + 1 + k := by omega
    rw [harith] at this
    simpa [bump] using this

/-- C1: the claim says a call configured with retry count 3 never sees
a 4th attempt.  The code overwrites the `retry_count` argument with 10
(tasks.py line 25), so with a transport raising `RecoverableWarning` on
the first three attempts and succeeding on the fourth, `_rerun` called
with retry count 3 performs a 4th attempt (with 3 interval sleeps) and
returns its output instead of stopping after 3 attempts. -/
theorem c1_retry_count_ignored :
    (rerun c1Transport c1Args 3 5 (initState [])).1 = .ok "done" ∧
    ((rerun c1Transport c1Args 3 5 (initState [])).2.trace.filter isRunEvent).length = 4 ∧
    ((rerun c1Transport c1Args 3 5 (initState [])).2.trace.filter isSleepEvent).length = 3 := by
  decide

/-- C2 counterexample: the claim says retry exhaustion fails with a
non-retryable (fatal) error.  With a transport whose every attempt
raises `RecoverableWarning`, the exhausted `_rerun` raises
`cfy_exc.RecoverableError`, which the engine classifies as retryable. -/
theorem c2_counterexample :
    (rerun c2Transport c1Args 10 15 (initState [])).1 =
      .err (.recoverableError (rerunFailMsg c1Args)) ∧
    (ErrK.recoverableError (rerunFailMsg c1Args)).retryable = true := by
  constructor
  · decide
  · rfl

/-- C2 amended: when the retry budget is exhausted (every attempt raised
a recoverable warning) the executor fails with a retryable
`RecoverableError` carrying the last arguments attempted; any failure
other than a recoverable warning propagates immediately without
consuming the retry budget (exactly one attempt, no sleep). -/
theorem c2_rerun_contract (tr : Transport) (a : RunArgs) (rc rs : Nat) (st : RunState) :
    ((∀ k, k < 10 → (tr.runOut (st.runIdx + k)).isWarn = true) →
      (rerun tr a rc rs st).1 = .err (.recoverableError (rerunFailMsg a)) ∧
      (ErrK.recoverableError (rerunFailMsg a)).retryable = true) ∧
    (∀ e, tr.runOut st.runIdx = .fatal e →
      rerun tr a rc rs st = (.err e, bump st a)) := by
  constructor
  · intro h
    exact ⟨rerunLoop_allWarn tr a rs 10 st h, rfl⟩
  · intro e he
    show rerunLoop tr a rs (9 + 1) st = _
    rw [rerunLoop_succ, he]

/-- Closed instantiation of `c2_rerun_contract`: exhaustion on an
always-warning transport, and immediate propagation of a fatal error on
a transport that raises it at the first attempt. -/
theorem c2_rerun_contract_witness :
    ((rerun c2Transport c1Args 10 15 (initState [])).1 =
      .err (.recoverableError (rerunFailMsg c1Args)) ∧
      (ErrK.recoverableError (rerunFailMsg c1Args)).retryable = true) ∧
    rerun c2FatalTransport c1Args 10 15 (initState []) =
      (.err (.nonRecoverableError "boom"), bump (initState []) c1Args) :=
  ⟨(c2_rerun_contract c2Transport c1Args 10 15 (initState [])).1
      (fun _ _ => rfl),
   (c2_rerun_contract c2FatalTransport c1Args 10 15 (initState [])).2
      (.nonRecoverableError "boom") rfl⟩

/-- C10: with no calls the operation returns at once and successfully:
for every context, transport, credential configuration and pre-existing
store, the result is success, the store is unchanged and the trace is
empty (no credential validation, no connection attempt). -/
theorem c10_no_calls (cx : Ctx) (tr : Transport) (props kwAuth : Auth)
    (store0 : List (String × String)) (fuel : Nat) :
    run cx tr props kwAuth [] store0 fuel = some (.ok (), initState store0) ∧
    (initState store0).store = store0 ∧
    (initState store0).trace = [] :=
  ⟨rfl, rfl, rfl⟩

/-! ### C9, C7, C4: further concrete scenarios -/

/-- A context with trivial collaborators: empty resource lookups and a
renderer returning the template text itself. -/
def plainCtx : Ctx where
  hostIp := "h"
  getResource := fun _ => ""
  render := fun t _ => t

/-- A credential set with one address and a user. -/
def demoAuth : Auth where
  ip := some (.list ["10.0.0.1"])
  user := some "admin"

/-- Transport whose run invocations all succeed and whose `is_closed`
checks answer false twice and then true. -/
def c9Transport : Transport where
  connect := fun _ => .ok "p"
  runOut := fun _ => .ok "out"
  isClosed := fun k => decide (2 ≤ k)

def c9Call : Call := { action := some "show" }

def c9Settings : CallSettings := callSettings (mkGlobals demoAuth) c9Call

/-- The expected trace of the C9 scenario: the connect, the single
command line, two exit commands each followed by the 1-second pacing
sleep, and the final close. -/
def c9Trace : List Event :=
  [Event.connectTry "10.0.0.1", Event.run (mkRunArgs "show" c9Settings),
   Event.run (exitRunArgs "exit" c9Settings), Event.sleep 1,
   Event.run (exitRunArgs "exit" c9Settings), Event.sleep 1, Event.close]

/-- C9: after the single call, with the default exit command and a
transport reporting closed only at the third check, exactly two exit
commands are issued, each followed by the fixed 1-second sleep, each
passing only the error patterns (warning and critical lists empty), and
then close is invoked exactly once. -/
theorem c9_close_sequence :
    run plainCtx c9Transport demoAuth {} [c9Call] [] 5 =
      some (.ok (), { store := [], trace := c9Trace, runIdx := 3, closedIdx := 3 }) ∧
    (c9Trace.filter (isRunOf "exit")).length = 2 ∧
    (c9Trace.filter (fun e => e == Event.close)).length = 1 ∧
    (c9Trace.filter (isRunOf "exit")).all
      (fun e => match e with
        | .run a => a.warning_examples.isEmpty && a.critical_examples.isEmpty
        | _ => true) = true := by
  decide

/-- Context of the C7 counterexample: template `t` resolves to text
`T`, which renders to the empty string; inline text `x` renders to
`X`. -/
def c7Ctx : Ctx where
  hostIp := "h"
  getResource := fun n => if n == "t" then "T" else ""
  render := fun text _ => if text == "T" then "" else if text == "x" then "X" else text

/-- A call with both a template name and inline template text. -/
def c7Call : Call := { template := some "t", template_text := some "x" }

/-- C7 counterexample: the claim states a strict precedence chain, under
which a given template name settles the call (its empty render means the
call is skipped).  The code instead falls through to the inline template
text whenever the text so far is still empty, so the call executes the
render of the inline text. -/
theorem c7_counterexample :
    compileCall c7Ctx c7Call = some "X" ∧
    compileCallSpec c7Ctx c7Call = none := by
  decide

/-- Transport returning output with surrounding whitespace on each of
the two line runs. -/
def c4Transport : Transport where
  connect := fun _ => .ok "p"
  runOut := fun n => if n == 0 then .ok "  x  " else .ok "  y  "
  isClosed := fun _ => true

/-- A two-line call that saves its result. -/
def c4Call : Call := { action := some "a\nb", save_to := some "k" }

/-- C4 counterexample: the claim says each per-line output is trimmed
before concatenation.  The code appends each output untrimmed plus a
newline and trims only the final accumulation, so with outputs
`"  x  "` and `"  y  "` it stores `"x  \n  y"` instead of the
trim-then-join value `"x\ny"`. -/
theorem c4_counterexample :
    (run plainCtx c4Transport demoAuth {} [c4Call] [] 5).map
        (fun p => storeGet p.2.store "k") = some (some "x  \n  y") ∧
    ("x  \n  y" : String) ≠ "x\ny" ∧
    pyStrip "  x  " ++ "\n" ++ pyStrip "  y  " = "x\ny" := by
  decide

/-! ### C6: missing credentials -/

/-- C6: when the merged credentials (container-host fallback applied)
still resolve to an empty address list or a falsy user, the run fails
with the fatal, non-retryable `NonRecoverableError` and performs no
connection attempt: the returned state has an empty trace and the store
unchanged. -/
theorem c6_missing_credentials (cx : Ctx) (tr : Transport) (props kwAuth : Auth)
    (calls : List Call) (store0 : List (String × String)) (fuel : Nat)
    (hcalls : calls.isEmpty = false)
    (h : (resolveIpList cx (mergeAuth props kwAuth).ip).isEmpty = true ∨
         strFalsy (mergeAuth props kwAuth).user = true) :
    run cx tr props kwAuth calls store0 fuel =
      some (.err (.nonRecoverableError
        "please check your credentials, ip or user not set"), initState store0) ∧
    (ErrK.nonRecoverableError
      "please check your credentials, ip or user not set").retryable = false ∧
    (initState store0).trace = [] ∧
    (initState store0).store = store0 := by
  refine ⟨?_, rfl, rfl, rfl⟩
  rcases h with h | h
  · simp [run, hcalls, h]
  · simp [run, hcalls, h]

/-- Credential set with an address list but no user. -/
def c6Auth : Auth := { ip := some (.list ["10.0.0.1"]) }

/-- Closed instantiation of `c6_missing_credentials`: a configuration
with an address but no user fails fatally with nothing attempted. -/
theorem c6_missing_credentials_witness :
    run plainCtx c9Transport c6Auth {} [c9Call] [] 5 =
      some (.err (.nonRecoverableError
        "please check your credentials, ip or user not set"), initState []) ∧
    (ErrK.nonRecoverableError
      "please check your credentials, ip or user not set").retryable = false ∧
    (initState ([] : List (String × String))).trace = [] ∧
    (initState ([] : List (String × String))).store = [] :=
  c6_missing_credentials plainCtx c9Transport c6Auth {} [c9Call] [] 5 rfl (Or.inr rfl)

/-! ### C5: host selector -/

/-- The events of a run of failing connect attempts, one try and one
failure log per address, in input order. -/
def connFailTrace (tr : Transport) : List String → List Event
  | [] => []
  | ip :: rest =>
    (match tr.connect ip with
     | .ok _ => [Event.connectTry ip]
     | .error ex => [Event.connectTry ip, Event.connectFailLog ip ex]) ++
      connFailTrace tr rest

theorem connFailTrace_count (tr : Transport) :
    ∀ ips : List String, (∀ ip ∈ ips, ∃ ex, tr.connect ip = .error ex) →
      ((connFailTrace tr ips).filter isConnectTry).length = ips.length := by
  intro ips
  induction ips with
  | nil => intro _; rfl
  | cons ip rest ih =>
    intro h
    obtain ⟨ex, hex⟩ := h ip (List.mem_cons_self ip rest)
    have := ih (fun q hq => h q (List.mem_cons_of_mem ip hq))
    simp [connFailTrace, hex, isConnectTry, this]

/-- C5: the host selector tries each address exactly once in input
order, logging every failed attempt with the address and the error;
when every address fails it raises the retryable `OperationRetry`
condition after exactly N logged attempts, and otherwise it stops at
the first successful address. -/
theorem c5_host_selector (tr : Transport) :
    (∀ (ips : List String) (st : RunState),
      (∀ ip ∈ ips, ∃ ex, tr.connect ip = .error ex) →
      connectLoop tr ips st =
        (.err (.operationRetry "Lets try one more time?"),
         { st with trace := st.trace ++ connFailTrace tr ips }) ∧
      ((connFailTrace tr ips).filter isConnectTry).length = ips.length ∧
      (ErrK.operationRetry "Lets try one more time?").retryable = true) ∧
    (∀ (pre : List String) (ip : String) (post : List String) (st : RunState)
      (prompt : String),
      (∀ q ∈ pre, ∃ ex, tr.connect q = .error ex) →
      tr.connect ip = .ok prompt →
      connectLoop tr (pre ++ ip :: post) st =
        (.ok prompt,
         { st with trace := st.trace ++ connFailTrace tr pre ++ [Event.connectTry ip] })) := by
  constructor
  · intro ips
    induction ips with
    | nil =>
      intro st h
      exact ⟨by simp [connectLoop, connFailTrace], rfl, rfl⟩
    | cons ip rest ih =>
      intro st h
      obtain ⟨ex, hex⟩ := h ip (List.mem_cons_self ip rest)
      have hrest := fun q hq => h q (List.mem_cons_of_mem ip hq)
      refine ⟨?_, connFailTrace_count tr (ip :: rest) h, rfl⟩
      have hih := (ih
        { st with trace := st.trace ++ [Event.connectTry ip, Event.connectFailLog ip ex] }
        hrest).1
      simp only [connectLoop, hex]
      simp only [connFailTrace, hex]
      simpa [List.append_assoc] using hih
  · intro pre
    induction pre with
    | nil =>
      intro ip post st prompt _ hip
      simp [connectLoop, hip, connFailTrace]
    | cons q pre' ih =>
      intro ip post st prompt h hip
      obtain ⟨ex, hex⟩ := h q (List.mem_cons_self q pre')
      have hrest := fun r hr => h r (List.mem_cons_of_mem q hr)
      have hih := ih ip post
        { st with trace := st.trace ++ [Event.connectTry q, Event.connectFailLog q ex] }
        prompt hrest hip
      simp only [List.cons_append, connectLoop, hex]
      simp only [connFailTrace, hex]
      simpa [List.append_assoc] using hih

/-- Transport with two dead addresses and a live third one. -/
def c5Transport : Transport where
  connect := fun ip => if ip == "10.0.0.3" then .ok "p3" else .error ("refused " ++ ip)
  runOut := fun _ => .ok "out"
  isClosed := fun _ => true

/-- Closed instantiation of `c5_host_selector`: both the all-fail case
over two addresses and the stop-at-first-success case with two failing
addresses before a live one. -/
theorem c5_host_selector_witness :
    (connectLoop c5Transport ["10.0.0.1", "10.0.0.2"] (initState []) =
      (.err (.operationRetry "Lets try one more time?"),
       { initState [] with
         trace := (initState []).trace ++
           connFailTrace c5Transport ["10.0.0.1", "10.0.0.2"] }) ∧
     ((connFailTrace c5Transport ["10.0.0.1", "10.0.0.2"]).filter isConnectTry).length = 2 ∧
     (ErrK.operationRetry "Lets try one more time?").retryable = true) ∧
    connectLoop c5Transport (["10.0.0.1", "10.0.0.2"] ++ "10.0.0.3" :: []) (initState []) =
      (.ok "p3",
       { initState [] with
         trace := (initState []).trace ++
           connFailTrace c5Transport ["10.0.0.1", "10.0.0.2"] ++
           [Event.connectTry "10.0.0.3"] }) :=
  ⟨(c5_host_selector c5Transport).1 ["10.0.0.1", "10.0.0.2"] (initState [])
      (by intro ip hip; fin_cases hip <;> exact ⟨_, rfl⟩),
   (c5_host_selector c5Transport).2 ["10.0.0.1", "10.0.0.2"] "10.0.0.3" [] (initState [])
      "p3" (by intro q hq; fin_cases hq <;> exact ⟨_, rfl⟩) rfl⟩

/-! ### C3: closing loop -/

theorem closeLoop_zero (tr : Transport) (ea : RunArgs) (ec : String) (st : RunState) :
    closeLoop tr ea ec 0 st =
      (if tr.isClosed st.closedIdx || ec == "" then
        some (.ok (), { st with
          closedIdx := st.closedIdx + 1
          trace := st.trace ++ [Event.close] })
      else none) := rfl

theorem closeLoop_succ (tr : Transport) (ea : RunArgs) (ec : String) (n : Nat)
    (st : RunState) :
    closeLoop tr ea ec (n + 1) st =
      (if tr.isClosed st.closedIdx || ec == "" then
        some (.ok (), { st with
          closedIdx := st.closedIdx + 1
          trace := st.trace ++ [Event.close] })
      else
        match tr.runOut st.runIdx with
        | .ok _ => closeLoop tr ea ec n
            { st with
              closedIdx := st.closedIdx + 1
              runIdx := st.runIdx + 1
              trace := st.trace ++ [Event.run ea, Event.sleep 1] }
        | .warn m => some (.err (.recoverableWarning m),
            { st with
              closedIdx := st.closedIdx + 1
              runIdx := st.runIdx + 1
              trace := st.trace ++ [Event.run ea] })
        | .fatal e => some (.err e,
            { st with
              closedIdx := st.closedIdx + 1
              runIdx := st.runIdx + 1
              trace := st.trace ++ [Event.run ea] })) := rfl

/-- Transport that never reports closed. -/
def c3Transport : Transport where
  connect := fun _ => .ok "p"
  runOut := fun _ => .ok "out"
  isClosed := fun _ => false

def c3Args : RunArgs := exitRunArgs "exit" c9Settings

/-- On the never-closed transport the closing loop consumes any amount
of fuel without finishing. -/
theorem c3_closeLoop_stuck : ∀ (fuel : Nat) (st : RunState),
    closeLoop c3Transport c3Args "exit" fuel st = none := by
  intro fuel
  induction fuel with
  | zero => intro st; rfl
  | succ n ih =>
    intro st
    exact ih { st with
      closedIdx := st.closedIdx + 1
      runIdx := st.runIdx + 1
      trace := st.trace ++ [Event.run c3Args, Event.sleep 1] }

/-- The full run of one call against the never-closed transport, as a
function of the closing-loop fuel. -/
def c3Run (fuel : Nat) : Option (Res Unit × RunState) :=
  run plainCtx c3Transport demoAuth {} [c9Call] [] fuel

theorem c3_run_stuck (fuel : Nat) : c3Run fuel = none :=
  c3_closeLoop_stuck fuel _

/-- C3 counterexample: the claim says the closing sequence terminates
for every transport behaviour within a bounded number of iterations and
that the transport close is invoked unconditionally.  Against a
transport that never reports closed, the exit-command loop of the code
never terminates — no amount of fuel completes the run, so the final
close is never reached. -/
theorem c3_counterexample : ¬ ∃ fuel : Nat, (c3Run fuel).isSome := by
  rintro ⟨fuel, h⟩
  rw [c3_run_stuck fuel] at h
  simp at h

/-- The exit-command section of a closing trace: n repetitions of the
exit run followed by the 1-second pacing sleep. -/
def exitSeq (a : RunArgs) : Nat → List Event
  | 0 => []
  | n + 1 => Event.run a :: Event.sleep 1 :: exitSeq a n

theorem exitSeq_no_close (a : RunArgs) : ∀ n, (exitSeq a n).count Event.close = 0 := by
  intro n
  induction n with
  | zero => rfl
  | succ m ih => simp [exitSeq, List.count_cons, ih]

/-- C3 amended: the closing loop has no iteration cap — it terminates
exactly when the transport reports closed (a transport that never
reports closed loops forever and the close is never invoked), and when
the transport reports closed at the (n+1)-th check, the loop issues n
exit commands with their pacing sleeps and then invokes close exactly
once. -/
theorem c3_close_contract (tr : Transport) (ea : RunArgs) (ec : String) :
    ∀ (n fuel : Nat) (st : RunState),
      ec ≠ "" →
      (∀ k, (tr.runOut k).isOk = true) →
      (∀ k, tr.isClosed k = decide (st.closedIdx + n ≤ k)) →
      n ≤ fuel →
      ∃ st2, closeLoop tr ea ec fuel st = some (.ok (), st2) ∧
        st2.trace = st.trace ++ exitSeq ea n ++ [Event.close] ∧
        (exitSeq ea n).count Event.close = 0 := by
  intro n
  induction n with
  | zero =>
    intro fuel st _ _ hcl _
    have hc : tr.isClosed st.closedIdx = true := by
      rw [hcl st.closedIdx]; simp
    cases fuel with
    | zero =>
      refine ⟨{ st with closedIdx := st.closedIdx + 1, trace := st.trace ++ [Event.close] },
        ?_, ?_, rfl⟩
      · rw [closeLoop_zero, hc]; simp
      · simp [exitSeq]
    | succ m =>
      refine ⟨{ st with closedIdx := st.closedIdx + 1, trace := st.trace ++ [Event.close] },
        ?_, ?_, rfl⟩
      · rw [closeLoop_succ, hc]; simp
      · simp [exitSeq]
  | succ n ih =>
    intro fuel st hec hok hcl hfuel
    have hc : tr.isClosed st.closedIdx = false := by
      rw [hcl st.closedIdx]; simp
    cases fuel with
    | zero => omega
    | succ m =>
      obtain ⟨o, ho⟩ : ∃ o, tr.runOut st.runIdx = .ok o := by
        have := hok st.runIdx
        cases hr : tr.runOut st.runIdx with
        | ok o => exact ⟨o, rfl⟩
        | warn w => rw [hr] at this; simp [RunOutcome.isOk] at this
        | fatal e => rw [hr] at this; simp [RunOutcome.isOk] at this
      have hecb : (ec == "") = false := beq_eq_false_iff_ne.mpr hec
      have harith : st.closedIdx + (n + 1) = (st.closedIdx + 1) + n := by omega
      obtain ⟨st2, heq, htrace, _⟩ := ih m
        { st with
          closedIdx := st.closedIdx + 1
          runIdx := st.runIdx + 1
          trace := st.trace ++ [Event.run ea, Event.sleep 1] }
        hec hok (fun k => by rw [hcl k, harith]) (Nat.le_of_succ_le_succ hfuel)
      refine ⟨st2, ?_, ?_, exitSeq_no_close ea (n + 1)⟩
      · rw [closeLoop_succ, hc, hecb]
        simpa [ho] using heq
      · rw [htrace]
        simp [exitSeq, List.append_assoc]

/-- Closed instantiation of `c3_close_contract`: the C9 transport
reports closed at the third check, so with fuel 5 the loop issues two
exit commands and then closes exactly once. -/
theorem c3_close_contract_witness :
    ∃ st2, closeLoop c9Transport c3Args "exit" 5 (initState []) = some (.ok (), st2) ∧
      st2.trace = (initState []).trace ++ exitSeq c3Args 2 ++ [Event.close] ∧
      (exitSeq c3Args 2).count Event.close = 0 :=
  c3_close_contract c9Transport c3Args "exit" 2 5 (initState [])
    (by decide) (fun _ => rfl) (fun k => by simp [c9Transport, initState]) (by decide)

/-! ### C7: call compilation contract -/

/-- C7 amended: resolution precedence of the executable text — non-empty
raw action text is used verbatim; else, when a template name is given,
a failed (empty) lookup skips the call immediately without consulting
inline template text, and a successful lookup is rendered with the
parameters plus the ambient context under the reserved key `ctx`; when
the named template renders to empty text, non-empty inline template
text (when present) is rendered as a fallback; else non-empty inline
template text alone is rendered identically; else the call compiles to
nothing — and a call that compiles to nothing is skipped entirely: no
line executes, nothing is stored, the state is unchanged. -/
theorem c7_compile_contract (cx : Ctx) (call : Call) (tr : Transport) (g : Globals)
    (st : RunState) :
    (∀ a, call.action = some a → a ≠ "" → compileCall cx call = some a) ∧
    (∀ tname, call.action.getD "" = "" → call.template = some tname →
      cx.getResource tname = "" → compileCall cx call = none) ∧
    (∀ tname tt, call.action.getD "" = "" → call.template = some tname →
      cx.getResource tname ≠ "" →
      cx.render (cx.getResource tname)
        (setParam (call.params.getD []) "ctx" PVal.ctxRef) = "" →
      call.template_text = some tt → tt ≠ "" →
      compileCall cx call =
        (if cx.render tt (setParam (call.params.getD []) "ctx" PVal.ctxRef) == ""
         then none
         else some (cx.render tt (setParam (call.params.getD []) "ctx" PVal.ctxRef)))) ∧
    (∀ tt, call.action.getD "" = "" → call.template = none →
      call.template_text = some tt → tt ≠ "" →
      compileCall cx call =
        (if cx.render tt (setParam (call.params.getD []) "ctx" PVal.ctxRef) == ""
         then none
         else some (cx.render tt (setParam (call.params.getD []) "ctx" PVal.ctxRef)))) ∧
    (call.action.getD "" = "" → call.template = none → call.template_text = none →
      compileCall cx call = none) ∧
    (compileCall cx call = none → processCall cx tr g call st = (.ok (), st)) := by
  refine ⟨?_, ?_, ?_, ?_, ?_, ?_⟩
  · intro a ha hne
    simp [compileCall, compileTemplateText, ha, hne]
  · intro tname h0 ht hres
    simp [compileCall, h0, ht, hres]
  · intro tname tt h0 ht hres hrend htt htne
    simp [compileCall, compileTemplateText, h0, ht, hres, hrend, htt, htne]
  · intro tt h0 ht htt htne
    simp [compileCall, compileTemplateText, h0, ht, htt, htne]
  · intro h0 ht htt
    simp [compileCall, compileTemplateText, h0, ht, htt]
  · intro h
    simp [processCall, h]

/-- A call with raw action text. -/
def c7ActionCall : Call := { action := some "cmd" }

/-- A call naming a template that does not resolve. -/
def c7MissingCall : Call := { template := some "missing", template_text := some "x" }

/-- A call with inline template text only. -/
def c7InlineCall : Call := { template_text := some "x" }

/-- A call with no text source at all. -/
def c7EmptyCall : Call := {}

/-- Closed instantiation of `c7_compile_contract`, one fact per clause:
verbatim action, skipped missing template (inline text not consulted),
the fall-through from an empty render to inline text, inline text
alone, the all-absent case, and the skip of a call that compiles to
nothing. -/
theorem c7_compile_contract_witness :
    compileCall c7Ctx c7ActionCall = some "cmd" ∧
    compileCall c7Ctx c7MissingCall = none ∧
    compileCall c7Ctx c7Call =
      (if c7Ctx.render "x" (setParam [] "ctx" PVal.ctxRef) == "" then none
       else some (c7Ctx.render "x" (setParam [] "ctx" PVal.ctxRef))) ∧
    compileCall c7Ctx c7InlineCall =
      (if c7Ctx.render "x" (setParam [] "ctx" PVal.ctxRef) == "" then none
       else some (c7Ctx.render "x" (setParam [] "ctx" PVal.ctxRef))) ∧
    compileCall c7Ctx c7EmptyCall = none ∧
    processCall c7Ctx c9Transport (mkGlobals demoAuth) c7EmptyCall (initState []) =
      (.ok (), initState []) :=
  ⟨(c7_compile_contract c7Ctx c7ActionCall c9Transport (mkGlobals demoAuth)
      (initState [])).1 "cmd" rfl (by decide),
   (c7_compile_contract c7Ctx c7MissingCall c9Transport (mkGlobals demoAuth)
      (initState [])).2.1 "missing" rfl rfl rfl,
   (c7_compile_contract c7Ctx c7Call c9Transport (mkGlobals demoAuth)
      (initState [])).2.2.1 "t" "x" rfl rfl (by decide) rfl rfl (by decide),
   (c7_compile_contract c7Ctx c7InlineCall c9Transport (mkGlobals demoAuth)
      (initState [])).2.2.2.1 "x" rfl rfl rfl (by decide),
   (c7_compile_contract c7Ctx c7EmptyCall c9Transport (mkGlobals demoAuth)
      (initState [])).2.2.2.2.1 rfl rfl rfl,
   (c7_compile_contract c7Ctx c7EmptyCall c9Transport (mkGlobals demoAuth)
      (initState [])).2.2.2.2.2 rfl⟩

/-! ### C4: line execution and accumulation contract -/

/-- The number of non-blank lines of a split command text. -/
def nonblankCount (ls : List String) : Nat :=
  (ls.filter (fun l => !(pyStrip l == ""))).length

/-- The run events of the non-blank lines, in input order. -/
def lineEvs (s : CallSettings) (ls : List String) : List Event :=
  (ls.filter (fun l => !(pyStrip l == ""))).map (fun l => Event.run (mkRunArgs l s))

/-- The accumulation of n raw line outputs starting at transport
invocation index i: each output followed by a newline, untrimmed. -/
def okAcc (outs : Nat → String) : Nat → Nat → String
  | _, 0 => ""
  | i, n + 1 => outs i ++ "\n" ++ okAcc outs (i + 1) n

/-- On an always-succeeding transport, the line loop runs exactly the
non-blank lines in order, accumulating each raw output plus a newline
and advancing the invocation counter once per line. -/
theorem runLines_ok (tr : Transport) (s : CallSettings) (rc rs : Nat)
    (outs : Nat → String) (hok : ∀ k, tr.runOut k = .ok (outs k)) :
    ∀ (ls : List String) (acc : String) (st : RunState),
      runLines tr s rc rs ls acc st =
        (.ok (acc ++ okAcc outs st.runIdx (nonblankCount ls)),
         { st with
           runIdx := st.runIdx + nonblankCount ls
           trace := st.trace ++ lineEvs s ls }) := by
  intro ls
  induction ls with
  | nil =>
    intro acc st
    simp [runLines, nonblankCount, lineEvs, okAcc]
  | cons l rest ih =>
    intro acc st
    by_cases hb : (pyStrip l == "") = true
    · have h1 : runLines tr s rc rs (l :: rest) acc st = runLines tr s rc rs rest acc st := by
        simp [runLines, hb]
      rw [h1, ih]
      simp [nonblankCount, lineEvs, hb]
    · have hb' : (pyStrip l == "") = false := by revert hb; cases pyStrip l == "" <;> simp
      have h1 : runLines tr s rc rs (l :: rest) acc st =
          runLines tr s rc rs rest (acc ++ outs st.runIdx ++ "\n")
            (bump st (mkRunArgs l s)) := by
        simp [runLines, hb',
          rerun_first_ok tr (mkRunArgs l s) rc rs st (outs st.runIdx) (hok st.runIdx)]
      have hcount : nonblankCount (l :: rest) = nonblankCount rest + 1 := by
        simp [nonblankCount, List.filter_cons, hb']
      rw [h1, ih, Prod.mk.injEq]
      refine ⟨?_, ?_⟩
      · rw [hcount]
        simp [okAcc, bump, String.append_assoc]
      · simp only [RunState.mk.injEq, bump]
        refine ⟨trivial, ?_, ?_, trivial⟩
        · simp [lineEvs, List.filter_cons, hb', List.append_assoc]
        · rw [hcount]; omega

/-- C4 amended: for a compiled call on an always-succeeding transport,
the non-blank lines execute strictly in input order (blank lines are
skipped), each raw per-line output is appended untrimmed followed by a
newline, and the accumulated result is trimmed once before storage
under a truthy save key; with no save key the store is untouched. -/
theorem c4_lines_contract (cx : Ctx) (tr : Transport) (g : Globals) (call : Call)
    (st : RunState) (op : String) (outs : Nat → String) (key : String)
    (hop : compileCall cx call = some op)
    (hok : ∀ k, tr.runOut k = .ok (outs k)) :
    (call.save_to = some key → key ≠ "" →
      processCall cx tr g call st = (.ok (), { st with
        store := storeSet st.store key
          (pyStrip (okAcc outs st.runIdx (nonblankCount (pySplitNL op))))
        runIdx := st.runIdx + nonblankCount (pySplitNL op)
        trace := st.trace ++ lineEvs (callSettings g call) (pySplitNL op) ++
          [Event.storeWrite key
            (pyStrip (okAcc outs st.runIdx (nonblankCount (pySplitNL op))))] })) ∧
    (call.save_to = none →
      processCall cx tr g call st = (.ok (), { st with
        runIdx := st.runIdx + nonblankCount (pySplitNL op)
        trace := st.trace ++ lineEvs (callSettings g call) (pySplitNL op) })) := by
  constructor
  · intro hsave hkey
    simp only [processCall, hop]
    rw [runLines_ok tr (callSettings g call) (call.retry_count.getD 10)
      (call.retry_sleep.getD 15) outs hok (pySplitNL op) "" st]
    simp [hsave, hkey]
  · intro hsave
    simp only [processCall, hop]
    rw [runLines_ok tr (callSettings g call) (call.retry_count.getD 10)
      (call.retry_sleep.getD 15) outs hok (pySplitNL op) "" st]
    simp [hsave]

/-- A two-command call with a blank middle line that saves its result. -/
def c4wSave : Call :=
  { action := some "show version\n\nshow interfaces", save_to := some "k" }

/-- A two-command call with no save key. -/
def c4wNone : Call := { action := some "a\nb" }

/-- Closed instantiation of `c4_lines_contract`: the saving call and the
save-free call, both on an always-succeeding transport. -/
theorem c4_lines_contract_witness :
    processCall plainCtx c9Transport (mkGlobals demoAuth) c4wSave (initState []) =
      (.ok (), { initState [] with
        store := storeSet (initState []).store "k"
          (pyStrip (okAcc (fun _ => "out") (initState []).runIdx
            (nonblankCount (pySplitNL "show version\n\nshow interfaces"))))
        runIdx := (initState []).runIdx +
          nonblankCount (pySplitNL "show version\n\nshow interfaces")
        trace := (initState []).trace ++
          lineEvs (callSettings (mkGlobals demoAuth) c4wSave)
            (pySplitNL "show version\n\nshow interfaces") ++
          [Event.storeWrite "k" (pyStrip (okAcc (fun _ => "out") (initState []).runIdx
            (nonblankCount (pySplitNL "show version\n\nshow interfaces"))))] }) ∧
    processCall plainCtx c9Transport (mkGlobals demoAuth) c4wNone (initState []) =
      (.ok (), { initState [] with
        runIdx := (initState []).runIdx + nonblankCount (pySplitNL "a\nb")
        trace := (initState []).trace ++
          lineEvs (callSettings (mkGlobals demoAuth) c4wNone) (pySplitNL "a\nb") }) :=
  ⟨(c4_lines_contract plainCtx c9Transport (mkGlobals demoAuth) c4wSave (initState [])
      "show version\n\nshow interfaces" (fun _ => "out") "k" rfl (fun _ => rfl)).1
      rfl (by decide),
   (c4_lines_contract plainCtx c9Transport (mkGlobals demoAuth) c4wNone (initState [])
      "a\nb" (fun _ => "out") "k" rfl (fun _ => rfl)).2 rfl⟩

/-! ### C8: fatal failure aborts the run -/

theorem processCalls_append (cx : Ctx) (tr : Transport) (g : Globals)
    (xs ys : List Call) :
    ∀ st, processCalls cx tr g (xs ++ ys) st =
      (match processCalls cx tr g xs st with
       | (.err e, st1) => (.err e, st1)
       | (.ok _, st1) => processCalls cx tr g ys st1) := by
  induction xs with
  | nil => intro st; rfl
  | cons c rest ih =>
    intro st
    simp only [List.cons_append, processCalls]
    rcases h : processCall cx tr g c st with ⟨r, st1⟩
    cases r with
    | err e => simp
    | ok v => simpa using ih st1

/-- The retry loop never touches the runtime-properties store. -/
theorem rerunLoop_store (tr : Transport) (a : RunArgs) (rs : Nat) :
    ∀ (n : Nat) (st : RunState), ((rerunLoop tr a rs n st).2).store = st.store := by
  intro n
  induction n with
  | zero => intro st; rfl
  | succ m ih =>
    intro st
    rw [rerunLoop_succ]
    cases tr.runOut st.runIdx with
    | ok s => simp [bump]
    | fatal e => simp [bump]
    | warn w => simpa [bump] using ih _

/-- The line loop never touches the runtime-properties store. -/
theorem runLines_store (tr : Transport) (s : CallSettings) (rc rs : Nat) :
    ∀ (ls : List String) (acc : String) (st : RunState),
      ((runLines tr s rc rs ls acc st).2).store = st.store := by
  intro ls
  induction ls with
  | nil => intro acc st; rfl
  | cons l rest ih =>
    intro acc st
    by_cases hb : (pyStrip l == "") = true
    · simpa [runLines, hb] using ih acc st
    · have hb' : (pyStrip l == "") = false := by revert hb; cases pyStrip l == "" <;> simp
      rcases hr : rerun tr (mkRunArgs l s) rc rs st with ⟨r, st1⟩
      have hst1 : st1.store = st.store := by
        have := rerunLoop_store tr (mkRunArgs l s) rs 10 st
        rw [show rerunLoop tr (mkRunArgs l s) rs 10 st =
          rerun tr (mkRunArgs l s) rc rs st from rfl, hr] at this
        exact this
      cases r with
      | err e => simp [runLines, hb', hr, hst1]
      | ok part => simp only [runLines, hb', hr]; simp [ih, hst1]

/-- A call that raises an error stores nothing: the error propagates
before the save step, so the store of the returned state is the store
of the input state. -/
theorem processCall_err_store (cx : Ctx) (tr : Transport) (g : Globals) (call : Call)
    (st st1 : RunState) (e : ErrK)
    (h : processCall cx tr g call st = (.err e, st1)) : st1.store = st.store := by
  rcases hc : compileCall cx call with _ | op
  · simp only [processCall, hc] at h
    simp at h
  · simp only [processCall, hc] at h
    rcases hr : runLines tr (callSettings g call) (call.retry_count.getD 10)
      (call.retry_sleep.getD 15) (pySplitNL op) "" st with ⟨r, st2⟩
    have hst2 : st2.store = st.store := by
      have := runLines_store tr (callSettings g call) (call.retry_count.getD 10)
        (call.retry_sleep.getD 15) (pySplitNL op) "" st
      rw [hr] at this
      exact this
    rw [hr] at h
    cases r with
    | err e2 =>
      simp only [Prod.mk.injEq] at h
      obtain ⟨-, h2⟩ := h
      rw [← h2]
      exact hst2
    | ok result =>
      rcases hs : call.save_to with _ | k
      · simp only [hs] at h
        simp at h
      · simp only [hs] at h
        by_cases hk : (k == "") = true
        · simp [hk] at h
        · simp [hk] at h

/-- C8: when a line of some call raises a fatal (non-warning) error,
the whole run returns that error with the state as it stood right after
the failing line: no later line or call executes, the failing call
stores nothing, and the results stored by earlier calls remain in the
store (no rollback). -/
theorem c8_fatal_abort (cx : Ctx) (tr : Transport) (props kwAuth : Auth)
    (pre : List Call) (c : Call) (post : List Call)
    (store0 : List (String × String)) (fuel : Nat) (prompt : String)
    (st1 st2 st3 : RunState) (e : ErrK)
    (hip : (resolveIpList cx (mergeAuth props kwAuth).ip).isEmpty = false)
    (huser : strFalsy (mergeAuth props kwAuth).user = false)
    (hconn : connectLoop tr (resolveIpList cx (mergeAuth props kwAuth).ip)
      (initState store0) = (.ok prompt, st1))
    (hpre : processCalls cx tr (mkGlobals (mergeAuth props kwAuth)) pre st1 = (.ok (), st2))
    (hc : processCall cx tr (mkGlobals (mergeAuth props kwAuth)) c st2 = (.err e, st3)) :
    run cx tr props kwAuth (pre ++ c :: post) store0 fuel = some (.err e, st3) ∧
    st3.store = st2.store := by
  refine ⟨?_, processCall_err_store cx tr (mkGlobals (mergeAuth props kwAuth)) c st2 st3 e hc⟩
  have hne : (pre ++ c :: post).isEmpty = false := by cases pre <;> rfl
  simp only [run, hne, Bool.false_eq_true, if_false, hip, huser, Bool.or_self,
    hconn, processCalls_append, hpre, processCalls, hc]

/-- Transport whose first run invocation succeeds and whose second
raises a fatal error. -/
def c8Transport : Transport where
  connect := fun _ => .ok "p"
  runOut := fun n =>
    if n == 0 then .ok "r1" else .fatal (.nonRecoverableError "critical matched")
  isClosed := fun _ => true

def c8Pre : Call := { action := some "p1", save_to := some "k1" }

def c8Bad : Call := { action := some "boom" }

def c8Post : Call := { action := some "p3", save_to := some "k3" }

def c8St1 : RunState :=
  { store := [], trace := [Event.connectTry "10.0.0.1"], runIdx := 0, closedIdx := 0 }

def c8St2 : RunState where
  store := [("k1", "r1")]
  trace := [Event.connectTry "10.0.0.1", Event.run (mkRunArgs "p1" c9Settings),
    Event.storeWrite "k1" "r1"]
  runIdx := 1
  closedIdx := 0

def c8St3 : RunState where
  store := [("k1", "r1")]
  trace := [Event.connectTry "10.0.0.1", Event.run (mkRunArgs "p1" c9Settings),
    Event.storeWrite "k1" "r1", Event.run (mkRunArgs "boom" c9Settings)]
  runIdx := 2
  closedIdx := 0

/-- Closed instantiation of `c8_fatal_abort`: the first call stores its
result, the second call fails fatally on its line, and the run returns
the failure with the first result still stored and the third call never
reached. -/
theorem c8_fatal_abort_witness :
    run plainCtx c8Transport demoAuth {} ([c8Pre] ++ c8Bad :: [c8Post]) [] 5 =
      some (.err (.nonRecoverableError "critical matched"), c8St3) ∧
    c8St3.store = c8St2.store :=
  c8_fatal_abort plainCtx c8Transport demoAuth {} [c8Pre] c8Bad [c8Post] [] 5 "p"
    c8St1 c8St2 c8St3 (.nonRecoverableError "critical matched")
    rfl rfl (by decide) (by decide) (by decide)

end Terminal
